import Mathlib

/-!
Shallow embedding of `src/app.py` (parallel API dashboard).

Conventions of the embedding:
* JSON values (as produced by `response.json()`) are the inductive `Json`;
  a Python `None` payload field is `Option.none`.
* Python exceptions inside the `try` blocks are `Except String` with the
  exception's `str(e)` message; machine-dependent parts of messages are
  rendered with fixed wording.
* Wall-clock reads (`time.time()`) are modelled by explicit duration
  parameters: a nonnegative rational measures time spent in a region.
* Time is `ℚ` (seconds).
-/

namespace Dashboard

/-- JSON values as returned by `response.json()` in `fetch_api_data`. -/
inductive Json where
  | null
  | bool (b : Bool)
  | num (q : ℚ)
  | str (s : String)
  | arr (elems : List Json)
  | obj (fields : List (String × Json))
deriving Repr, Inhabited

/-- A single-quote character, used in Python error messages. -/
def sq : String := String.singleton (Char.ofNat 39)

/-- The Python type name of a parsed-JSON value (used in error messages). -/
def Json.pyType : Json → String
  | .null => "NoneType"
  | .bool _ => "bool"
  | .num _ => "float"
  | .str _ => "str"
  | .arr _ => "list"
  | .obj _ => "dict"

/-- Rendering of `str(KeyError(k))` in Python: the missing key wrapped in quotes. -/
def keyErrorMsg (k : String) : String := sq ++ k ++ sq

/-- Rendering of `str(TypeError(...))` for subscripting a non-subscriptable value. -/
def notSubscriptableMsg (ty : String) : String :=
  sq ++ ty ++ sq ++ " object is not subscriptable"

/-- Python `j[k]` for a string key `k` on a parsed-JSON value: dict lookup
with `KeyError` on a missing key, `TypeError` on non-dict values. -/
def Json.subscript : Json → String → Except String Json
  | .obj fields, k =>
      match fields.lookup k with
      | some v => .ok v
      | none => .error (keyErrorMsg k)
  | .arr _, _ => .error "list indices must be integers or slices, not str"
  | .str _, _ => .error "string indices must be integers"
  | j, _ => .error (notSubscriptableMsg j.pyType)

/-- Python `d[k]` where `d` is `result["data"]`: `None` (the `Option.none`
case) is not subscriptable; otherwise subscript the JSON value. -/
def dataSubscript (d : Option Json) (k : String) : Except String Json :=
  match d with
  | none => .error (notSubscriptableMsg "NoneType")
  | some j => j.subscript k

/-- Python `d.get(k, default)`: only dicts have `.get`; on other values an
`AttributeError` is raised. -/
def pyDictGet (d : Option Json) (k : String) (default : Json) :
    Except String Json :=
  match d with
  | some (.obj fields) => .ok ((fields.lookup k).getD default)
  | some j => .error (sq ++ j.pyType ++ sq ++ " object has no attribute " ++
      sq ++ "get" ++ sq)
  | none => .error (sq ++ "NoneType" ++ sq ++ " object has no attribute " ++
      sq ++ "get" ++ sq)

/-- Python `d.items()`: iterates a dict in insertion order; `AttributeError`
on non-dict values. -/
def pyItems : Json → Except String (List (String × Json))
  | .obj fields => .ok fields
  | j => .error (sq ++ j.pyType ++ sq ++ " object has no attribute " ++
      sq ++ "items" ++ sq)

/-- Digits to a natural number, most significant first. -/
def digitsToNat (ds : List Char) : Nat :=
  ds.foldl (fun n c => 10 * n + (c.toNat - 48)) 0

/-- Split a leading run of decimal digits off a character list. -/
def takeDigits : List Char → List Char × List Char
  | [] => ([], [])
  | c :: rest =>
      if c.isDigit then
        let p := takeDigits rest
        (c :: p.1, p.2)
      else ([], c :: rest)

/-- Parse an unsigned decimal mantissa `digits[.digits]`, `.digits` or
`digits.`, returning its value and the unconsumed input. -/
def parseMantissa (cs : List Char) : Option (ℚ × List Char) :=
  let ip := takeDigits cs
  match ip.2 with
  | '.' :: r2 =>
      let fp := takeDigits r2
      if ip.1.isEmpty ∧ fp.1.isEmpty then none
      else some ((digitsToNat ip.1 : ℚ) +
        (digitsToNat fp.1 : ℚ) / ((10 : ℚ) ^ fp.1.length), fp.2)
  | _ => if ip.1.isEmpty then none else some ((digitsToNat ip.1 : ℚ), ip.2)

/-- Parse the part after `e`/`E` in a float literal: optional sign and a
nonempty digit run consuming the rest of the input. -/
def parseExpPart (cs : List Char) : Option Int :=
  let sp : Int × List Char :=
    match cs with
    | '+' :: r => (1, r)
    | '-' :: r => (-1, r)
    | _ => (1, cs)
  let dp := takeDigits sp.2
  if dp.1.isEmpty ∨ ¬ dp.2.isEmpty then none
  else some (sp.1 * (digitsToNat dp.1 : Int))

/-- Python `float(s)` on a string: strips surrounding whitespace, then an
optional sign, decimal mantissa and optional exponent.  (The `inf`/`nan`
and underscore-separator forms accepted by Python are not modelled; no
payload in this development uses them.) -/
def pyParseFloat (s : String) : Option ℚ :=
  let cs := ((s.toList.dropWhile Char.isWhitespace).reverse.dropWhile
    Char.isWhitespace).reverse
  let sp : ℚ × List Char :=
    match cs with
    | '+' :: r => (1, r)
    | '-' :: r => (-1, r)
    | _ => (1, cs)
  match parseMantissa sp.2 with
  | none => none
  | some (m, rest) =>
      match rest with
      | [] => some (sp.1 * m)
      | 'e' :: r2 =>
          match parseExpPart r2 with
          | some e => some (sp.1 * m * (10 : ℚ) ^ e)
          | none => none
      | 'E' :: r2 =>
          match parseExpPart r2 with
          | some e => some (sp.1 * m * (10 : ℚ) ^ e)
          | none => none
      | _ => none

/-- Python `float(v)` on a parsed-JSON value: numbers pass through, booleans
coerce to 0/1, strings are parsed (`ValueError` on failure), other values
raise `TypeError`. -/
def pyFloat : Json → Except String ℚ
  | .num q => .ok q
  | .bool b => .ok (if b then 1 else 0)
  | .str s =>
      match pyParseFloat s with
      | some q => .ok q
      | none => .error ("could not convert string to float: " ++ sq ++ s ++ sq)
  | j => .error ("float() argument must be a string or a real number, not " ++
      sq ++ j.pyType ++ sq)

/-- A source descriptor: one entry of the `APIS` list (name, url, query
parameters, processor tag, simulated latency in seconds).  Query-parameter
values are kept as the strings they serialise to on the request URL; no
code path inspects them. -/
structure Api where
  name : String
  url : String
  params : List (String × String)
  processor : String
  latency : ℚ
deriving Repr, DecidableEq

/-- The body of the HTTP response: either a JSON document or bytes on which
`response.json()` raises (with the decode error's message). -/
inductive HttpBody where
  | json (j : Json)
  | invalid (msg : String)
deriving Repr

/-- Outcome of `requests.get`: either the call raises (transport failure,
connection error, ...) with message `msg`, or it returns a response with a
final status code and body (redirects already followed). -/
inductive HttpOutcome where
  | failure (msg : String)
  | response (status : Nat) (body : HttpBody)
deriving Repr

/-- The record built by `fetch_api_data` (`api`, `data`, `error` keys). -/
structure FetchResult where
  api : Api
  data : Option Json
  error : Option String
deriving Repr

/-- The same record after `fetch_with_latency` added the `api_time` key. -/
structure TimedFetchResult where
  api : Api
  data : Option Json
  error : Option String
  api_time : ℚ
deriving Repr

/-- Model of `response.raise_for_status()`: raises `requests.HTTPError` exactly for
4xx (client error) and 5xx (server error) status codes. -/
def raiseForStatus (status : Nat) : Option String :=
  if 400 ≤ status ∧ status < 500 then
    some (toString status ++ " Client Error")
  else if 500 ≤ status ∧ status < 600 then
    some (toString status ++ " Server Error")
  else none

/-- Embedding of `fetch_api_data(api)` (src/app.py lines 51-66), as a function of the
network's behaviour `o` on this invocation: runs the GET, raises for 4xx/5xx
status, parses the body; every exception is caught and returned as the
`error` field with `data = None`. -/
def fetch_api_data (api : Api) (o : HttpOutcome) : FetchResult :=
  match o with
  | .failure msg => { api := api, data := none, error := some msg }
  | .response status body =>
      match raiseForStatus status with
      | some msg => { api := api, data := none, error := some msg }
      | none =>
          match body with
          | .json j => { api := api, data := some j, error := none }
          | .invalid msg => { api := api, data := none, error := some msg }

/-- Embedding of `fetch_with_latency(api)` (src/app.py lines 68-78): records a start
time, obtains `inner` (the possibly cache-served value of
`fetch_api_data(api)`), sleeps `api["latency"]` seconds, and stores the
total elapsed wall-clock time in `api_time`.  `fetchDur` is the wall-clock
time the (possibly cached) `fetch_api_data` call took; `sleepDur` is the
wall-clock time the `time.sleep(api["latency"])` call took. -/
def fetch_with_latency (inner : FetchResult) (fetchDur sleepDur : ℚ) :
    TimedFetchResult :=
  { api := inner.api, data := inner.data, error := inner.error,
    api_time := fetchDur + sleepDur }

/-- A stored cache entry of the `@st.cache_data(ttl=60)` memoisation:
argument value, memoised return value, and the time it was stored. -/
structure CacheEntry where
  key : Api
  result : FetchResult
  storedAt : ℚ

/-- The TTL of the `st.cache_data` decorator on `fetch_api_data`. -/
def cacheTTL : ℚ := 60

/-- Modelled from the spec: the `@st.cache_data(ttl=60)` decorator
(library code, not in src/) memoises `fetch_api_data` by argument value
with a 60-second time-to-live; an entry older than the TTL is treated as
absent and recomputed. -/
def cacheLookup (cache : List CacheEntry) (api : Api) (now : ℚ) :
    Option FetchResult :=
  match cache.find? (fun e => e.key == api && decide (now - e.storedAt ≤ cacheTTL)) with
  | some e => some e.result
  | none => none

/-- Modelled from the spec: one call of the cached `fetch_api_data` at time
`now`.  On a hit the stored result is returned and no network call is made;
on a miss the body runs (issuing the network call, whose behaviour is `o`)
and the result is stored.  Returns (result, new cache, network-called?). -/
def cachedFetch (cache : List CacheEntry) (api : Api) (now : ℚ)
    (o : HttpOutcome) : FetchResult × List CacheEntry × Bool :=
  match cacheLookup cache api now with
  | some r => (r, cache, false)
  | none =>
      let r := fetch_api_data api o
      (r, { key := api, result := r, storedAt := now } :: cache, true)

/-- A pandas DataFrame: named columns and rows of cells (each row has one
cell per column). -/
structure DataFrame where
  cols : List String
  rows : List (List Json)
deriving Repr

/-- The chart kinds produced by the app (`px.line` / `px.area`). -/
inductive ChartKind where
  | line
  | area
deriving Repr, DecidableEq

/-- A rendered plotly-express chart: the (x, y) series read off the two
selected DataFrame columns, the chart kind, and the title. -/
structure Chart where
  series : List (Json × Json)
  kind : ChartKind
  title : String
deriving Repr

/-- Model of `pd.DataFrame({c1: v1, c2: v2})` on two parsed-JSON column values: both
must be sequences of equal length (`ValueError` otherwise).  (pandas's
scalar-broadcast corner for non-sequence dict values is conservatively
modelled as a construction error; no claim exercises it.) -/
def dataFrameFromCols (c1 : String) (v1 : Json) (c2 : String) (v2 : Json) :
    Except String DataFrame :=
  match v1, v2 with
  | .arr xs, .arr ys =>
      if xs.length = ys.length then
        .ok { cols := [c1, c2], rows := xs.zipWith (fun a b => [a, b]) ys }
      else .error "All arrays must be of the same length"
  | _, _ => .error "DataFrame constructor not properly called!"

/-- Model of `pd.DataFrame(v, columns=[c1, c2])` on a parsed-JSON value: a sequence
of two-element rows (`ValueError` on ragged or non-sequence data). -/
def dataFrameFromPairs (v : Json) (c1 c2 : String) :
    Except String DataFrame :=
  match v with
  | .arr rows => do
      let cells ← rows.mapM (fun r =>
        match r with
        | .arr [a, b] => Except.ok [a, b]
        | _ => Except.error "2 columns passed, passed data had different shape")
      .ok { cols := [c1, c2], rows := cells }
  | _ => .error "DataFrame constructor not properly called!"

/-- Model of `pd.DataFrame(listOfRowDicts)`: columns are taken from the first row's
keys (the comprehension in the stocks branch builds every row with the same
two keys); an empty list yields an empty DataFrame with no columns. -/
def dataFrameFromRecords (c1 c2 : String) (rows : List (List Json)) :
    DataFrame :=
  { cols := if rows.isEmpty then [] else [c1, c2], rows := rows }

/-- Model of `pd.to_datetime(q, unit="ms")` on one cell: defined on numbers (the
resulting timestamp object is represented symbolically, as no claim
inspects crypto series values); non-numeric cells raise. -/
def toDatetimeMs : Json → Except String Json
  | .num q => .ok (.arr [.str "datetime64-ms", .num q])
  | _ => .error "non integer/float value encountered"

/-- Model of `df[newCol] = pd.to_datetime(df[srcCol], unit="ms")`: append a column
computed cell-wise from an existing column. -/
def addDatetimeCol (df : DataFrame) (srcCol newCol : String) :
    Except String DataFrame :=
  match df.cols.indexOf? srcCol with
  | none => .error (keyErrorMsg srcCol)
  | some i => do
      let rows ← df.rows.mapM (fun r => do
        let d ← toDatetimeMs (r.getD i .null)
        Except.ok (r ++ [d]))
      .ok { cols := df.cols ++ [newCol], rows := rows }

/-- The `ValueError` message plotly express raises when the `x` (or `y`)
argument names a column absent from the DataFrame. -/
def pxMissingCol (arg : String) : String :=
  "Value of " ++ sq ++ arg ++ sq ++ " is not the name of a column in " ++
    sq ++ "data_frame" ++ sq

/-- Model of `px.line` / `px.area` `(df, x=x, y=y, title=title)`: both named columns
must exist in the DataFrame (`ValueError` otherwise — in particular on the
empty DataFrame, which has no columns); the chart's series pairs the two
columns row-wise. -/
def pxChart (kind : ChartKind) (df : DataFrame) (x y title : String) :
    Except String Chart :=
  match df.cols.indexOf? x with
  | none => .error (pxMissingCol "x")
  | some i =>
      match df.cols.indexOf? y with
      | none => .error (pxMissingCol "y")
      | some j =>
          .ok { series := df.rows.map (fun r => (r.getD i .null, r.getD j .null)),
                kind := kind, title := title }

/-- Python truthiness of the `error` field (`None` or a string): `None` and
the empty string are falsy. -/
def truthy : Option String → Bool
  | none => false
  | some s => !s.isEmpty

/-- Rendering of `str(NameError(...))` raised by `return fig, ...` when no processor
branch assigned `fig`. -/
def nameFigMsg : String :=
  "name " ++ sq ++ "fig" ++ sq ++ " is not defined"

/-- One step of the stocks-branch comprehension: the row dict
`["time": k, "price": float(v["1. open"])]` built for the entry `kv`. -/
def stockRow (kv : String × Json) : Except String (List Json) := do
  let o ← kv.2.subscript "1. open"
  let p ← pyFloat o
  Except.ok [Json.str kv.1, Json.num p]

/-- The (timestamp, opening price) pair the stocks branch extracts from one
mapping entry; used to state what the produced series is. -/
def stockPair (kv : String × Json) : Except String (Json × Json) := do
  let o ← kv.2.subscript "1. open"
  let p ← pyFloat o
  Except.ok (Json.str kv.1, Json.num p)

/-- The body of `process_data`'s `try` block (src/app.py lines 85-112):
dispatch on the processor tag and build the figure.  When the tag matches
no branch, the final `return fig, ...` raises `NameError` because `fig` was
never assigned — which the enclosing `except` catches. -/
def processBody (r : TimedFetchResult) : Except String Chart :=
  let processor := r.api.processor
  let data := r.data
  if processor = "weather" then do
    let hourly ← dataSubscript data "hourly"
    let times ← hourly.subscript "time"
    let temps ← hourly.subscript "temperature_2m"
    let df ← dataFrameFromCols "time" times "temperature" temps
    pxChart .line df "time" "temperature" "Hourly Temperature Forecast"
  else if processor = "crypto" then do
    let prices ← dataSubscript data "prices"
    let df ← dataFrameFromPairs prices "timestamp" "price"
    let df2 ← addDatetimeCol df "timestamp" "date"
    pxChart .area df2 "date" "price" "Bitcoin Price (7 Days)"
  else if processor = "stocks" then do
    let ts ← pyDictGet data "Time Series (5min)" (.obj [])
    let fields ← pyItems ts
    let rows ← fields.mapM stockRow
    let df := dataFrameFromRecords "time" "price" rows
    pxChart .line df "time" "price" "IBM Stock Price (5min intervals)"
  else
    .error nameFigMsg

/-- Embedding of `process_data(result)` (src/app.py lines 80-115): short-circuits on a
truthy `error` field with processing time `0`; otherwise runs the `try`
block, catching any exception.  `d` is the wall-clock duration from the
function's `start_time` to whichever `time.time()` call the taken return
path performs. -/
def process_data (r : TimedFetchResult) (d : ℚ) :
    Option Chart × Option String × ℚ :=
  if truthy r.error then (none, r.error, 0)
  else
    match processBody r with
    | .ok fig => (some fig, none, d)
    | .error e => (none, some e, d)

/-- One visible element written into a slot's placeholder by the rendering
block of `main`. -/
inductive RenderItem where
  | subheader (s : String)
  | errorBox (s : String)
  | chart (c : Option Chart)
  | metric (label : String) (value : ℚ)
deriving Repr

/-- The per-future rendering block of `main` (src/app.py lines 139-161):
subheader; on a truthy fetch error, an error box and the `API Time` metric
only (the `continue`); otherwise `process_data` runs and either a
processing-error box or the chart is shown, followed by both timing
metrics.  `d` is the processing duration passed through to `process_data`. -/
def render_slot (r : TimedFetchResult) (d : ℚ) : List RenderItem :=
  if truthy r.error then
    [.subheader r.api.name,
     .errorBox ("API Error: " ++ r.error.getD ""),
     .metric "API Time" r.api_time]
  else
    let p := process_data r d
    [.subheader r.api.name] ++
    (if truthy p.2.1 then [.errorBox ("Processing Error: " ++ p.2.1.getD "")]
     else [.chart p.1]) ++
    [.metric "API Time (incl. latency)" r.api_time,
     .metric "Processing Time" p.2.2]

/-- The timing metrics (label, value) shown in a rendered slot, in order. -/
def metricsOf (items : List RenderItem) : List (String × ℚ) :=
  items.filterMap (fun it =>
    match it with
    | .metric l v => some (l, v)
    | _ => none)

/-- One concurrent fetch task of the orchestrator: the index of its
descriptor in `APIS`, its result, and the wall-clock time at which its
future completes. -/
structure FetchTask where
  index : Nat
  result : TimedFetchResult
  doneAt : ℚ

/-- Modelled from the spec: `as_completed(futures)` (library code, not in
src/) yields the futures in the order they complete.  With each task's
completion time given, that order is the stable sort of the tasks by
completion time. -/
def as_completed (tasks : List FetchTask) : List FetchTask :=
  tasks.mergeSort (fun a b => decide (a.doneAt ≤ b.doneAt))

/-- The orchestration loop of `main` (src/app.py lines 130-136): the
sequence of (index, result) events delivered to the rendering block, in
completion order. -/
def orchestrate (tasks : List FetchTask) : List (Nat × TimedFetchResult) :=
  (as_completed tasks).map (fun t => (t.index, t.result))

/-- First entry of the `APIS` registry (src/app.py lines 14-25). -/
def apiWeather : Api :=
  { name := "Weather API",
    url := "https://api.open-meteo.com/v1/forecast",
    params := [("latitude", "40.71"), ("longitude", "-74.01"),
               ("hourly", "temperature_2m"), ("forecast_days", "1")],
    processor := "weather", latency := 5 }

/-- Second entry of the `APIS` registry (src/app.py lines 26-36). -/
def apiCrypto : Api :=
  { name := "Crypto Prices",
    url := "https://api.coingecko.com/api/v3/coins/bitcoin/market_chart",
    params := [("vs_currency", "usd"), ("days", "7"), ("interval", "daily")],
    processor := "crypto", latency := 5 }

/-- Third entry of the `APIS` registry (src/app.py lines 37-48). -/
def apiStocks : Api :=
  { name := "Stock Market",
    url := "https://www.alphavantage.co/query",
    params := [("function", "TIME_SERIES_INTRADAY"), ("symbol", "IBM"),
               ("interval", "5min"), ("apikey", "demo")],
    processor := "stocks", latency := 5 }

/-- The `APIS` source registry (src/app.py lines 13-49). -/
def APIS : List Api := [apiWeather, apiCrypto, apiStocks]

/-- Whether the network behaviour `o` makes `fetch_api_data` take an
exception path: transport failure, a 4xx/5xx status, or a body on which
JSON decoding fails. -/
def fetchFails : HttpOutcome → Bool
  | .failure _ => true
  | .response status body =>
      (raiseForStatus status).isSome ||
        (match body with
         | .invalid _ => true
         | .json _ => false)

/-! ## Claim theorems -/

/-- C1, counterexample: a 200 (2xx) response whose body fails JSON
decoding, with no transport failure, still yields `error` set and
`raw_payload = none` — the claim ties `error` to non-2xx status or
transport failure only. -/
theorem C1_counterexample :
    fetch_api_data apiWeather
      (.response 200 (.invalid "Expecting value: line 1 column 1 (char 0)")) =
    { api := apiWeather, data := none,
      error := some "Expecting value: line 1 column 1 (char 0)" } := rfl

/-- C1, amended: `fetch_api_data` always returns a record with exactly one
of `data`/`error` set, and `error` is set exactly when the network call
raised (transport failure), the status was 4xx/5xx, or the body failed
JSON decoding. -/
theorem C1_amended (api : Api) (o : HttpOutcome) :
    ((fetch_api_data api o).data.isSome ∧ (fetch_api_data api o).error = none
      ∨ (fetch_api_data api o).error.isSome ∧ (fetch_api_data api o).data = none)
    ∧ ((fetch_api_data api o).error.isSome ↔ fetchFails o = true) := by
  cases o with
  | failure msg => simp [fetch_api_data, fetchFails]
  | response status body =>
      cases h : raiseForStatus status with
      | some msg => simp [fetch_api_data, fetchFails, h]
      | none =>
          cases body with
          | json j => simp [fetch_api_data, fetchFails, h]
          | invalid msg => simp [fetch_api_data, fetchFails, h]

/-- C1, witness for the amended claim at a concrete input: a 500 response
gives an error-only result, and `fetchFails` holds of that outcome. -/
theorem C1_witness :
    ((fetch_api_data apiStocks (.response 500 (.json .null))).data.isSome ∧
       (fetch_api_data apiStocks (.response 500 (.json .null))).error = none
     ∨ (fetch_api_data apiStocks (.response 500 (.json .null))).error.isSome ∧
       (fetch_api_data apiStocks (.response 500 (.json .null))).data = none)
    ∧ ((fetch_api_data apiStocks (.response 500 (.json .null))).error.isSome ↔
        fetchFails (.response 500 (.json .null)) = true) :=
  C1_amended apiStocks (.response 500 (.json .null))

/-- A fetch result whose `error` field is the empty string (as produced by
an exception with an empty message): set, but falsy in Python. -/
def emptyErrResult : TimedFetchResult :=
  { api := apiWeather, data := none, error := some "", api_time := 6 }

/-- C2, counterexample: with `error` set to the empty string the
short-circuit is not taken (`if result["error"]:` is falsy on `""`), the
weather branch runs, and the returned triple carries a new error with
processing time `1`, not the stored error with time `0`. -/
theorem C2_counterexample :
    emptyErrResult.error = some "" ∧
    process_data emptyErrResult 1 =
      (none, some (notSubscriptableMsg "NoneType"), 1) ∧
    ((1 : ℚ) ≠ 0) := by
  refine ⟨rfl, rfl, by norm_num⟩

/-- C2, amended: for every fetch result whose `error` field is a non-empty
string, `process_data` short-circuits: it returns no chart, the stored
error itself, and processing time exactly `0` — uniformly in the payload
and in the elapsed duration, so `raw_payload` is never inspected. -/
theorem C2_amended (r : TimedFetchResult) (d : ℚ) (s : String)
    (hs : r.error = some s) (hne : s ≠ "") :
    process_data r d = (none, some s, 0) := by
  have hie : s.isEmpty = false := by
    cases h : s.isEmpty with
    | false => rfl
    | true => exact absurd ((String.isEmpty_iff s).mp h) hne
  have ht : truthy r.error = true := by
    simp [truthy, hs, hie]
  rw [process_data, if_pos ht, hs]

/-- C2, witness: a concrete fetch result carrying the error `"boom"`
short-circuits to `(none, some "boom", 0)`. -/
theorem C2_witness :
    process_data
      { api := apiWeather, data := some (.obj [("hourly", .null)]),
        error := some "boom", api_time := 6 } 3 = (none, some "boom", 0) :=
  C2_amended _ 3 "boom" rfl (by decide)

/-- Reading the two cells back off the rows built by the weather branch's
DataFrame recovers the index-wise zip of the two column lists. -/
lemma zipWith_row_extract (ts vs : List Json) :
    (List.zipWith (fun a b => [a, b]) ts vs).map
      (fun r => ((r[0]?).getD Json.null, (r[1]?).getD Json.null)) = ts.zip vs := by
  induction ts generalizing vs with
  | nil => simp
  | cons t ts ih =>
      cases vs with
      | nil => simp
      | cons v vs => simpa [List.getD] using ih vs

/-- The weather payload of the spec scenario, shaped
`hourly.time = seq`, `hourly.temperature_2m = seq`. -/
def weatherPayload (ts vs : List Json) : Json :=
  .obj [("hourly", .obj [("time", .arr ts), ("temperature_2m", .arr vs)])]

/-- C3, counterexample: a weather payload whose two sequences have lengths
1 and 0 (both valid sequences, index-wise zip `[]`) makes the DataFrame
constructor raise, so `process_data` returns an error triple and no line
chart is produced. -/
theorem C3_counterexample :
    process_data
      { api := apiWeather,
        data := some (weatherPayload [.str "00:00"] []),
        error := none, api_time := 6 } 2 =
    (none, some "All arrays must be of the same length", 2) := rfl

/-- C3, amended: for every weather-tagged fetch result whose payload is
`hourly.time`/`hourly.temperature_2m` sequences of equal length,
`process_data` produces the line chart titled
"Hourly Temperature Forecast" whose series is the index-wise zip of the
two sequences, with no error and the elapsed processing time. -/
theorem C3_amended (a : Api) (ts vs : List Json) (t d : ℚ)
    (hp : a.processor = "weather") (hl : ts.length = vs.length) :
    process_data
      { api := a, data := some (weatherPayload ts vs),
        error := none, api_time := t } d =
    (some { series := ts.zip vs, kind := .line,
            title := "Hourly Temperature Forecast" }, none, d) := by
  simp [process_data, truthy, processBody, hp, weatherPayload, dataSubscript,
    Json.subscript, List.lookup, dataFrameFromCols, hl, pxChart, bind,
    Except.bind, List.indexOf?, List.findIdx?_cons, List.getD,
    zipWith_row_extract]

/-- C3, witness: the spec's concrete weather scenario payload yields the
series `[("00:00", 10), ("01:00", 12)]` as a line chart. -/
theorem C3_witness :
    process_data
      { api := apiWeather,
        data := some (weatherPayload [.str "00:00", .str "01:00"]
          [.num 10, .num 12]),
        error := none, api_time := 6 } 2 =
    (some { series := [(.str "00:00", .num 10), (.str "01:00", .num 12)],
            kind := .line, title := "Hourly Temperature Forecast" },
     none, 2) :=
  C3_amended apiWeather [.str "00:00", .str "01:00"] [.num 10, .num 12] 6 2
    rfl rfl

/-- The row dict the stocks branch builds for an entry is the two-cell row
of the (timestamp, price) pair extracted from that entry. -/
lemma stockRow_eq (kv : String × Json) :
    stockRow kv = (stockPair kv).map (fun p => [p.1, p.2]) := by
  unfold stockRow stockPair
  cases hs : kv.2.subscript "1. open" with
  | error e => simp [hs, bind, Except.bind, Except.map]
  | ok o =>
      cases hf : pyFloat o with
      | error e => simp [hs, hf, bind, Except.bind, Except.map]
      | ok p => simp [hs, hf, bind, Except.bind, Except.map, pure, Except.pure]

/-- When extracting the (timestamp, price) pairs from every entry of the
mapping succeeds, the stocks branch's row comprehension succeeds with the
corresponding two-cell rows, one per entry. -/
lemma stocks_mapM (entries : List (String × Json))
    (pairs : List (Json × Json))
    (hm : entries.mapM stockPair = Except.ok pairs) :
    entries.mapM stockRow = Except.ok (pairs.map (fun p => [p.1, p.2])) ∧
      pairs.length = entries.length := by
  induction entries generalizing pairs with
  | nil =>
      simp only [List.mapM_nil] at hm ⊢
      obtain rfl : ([] : List (Json × Json)) = pairs := by
        simpa [pure, Except.pure] using hm
      simp [pure, Except.pure]
  | cons kv rest ih =>
      rw [List.mapM_cons] at hm
      cases hsp : stockPair kv with
      | error e => rw [hsp] at hm; simp [bind, Except.bind] at hm
      | ok p =>
          rw [hsp] at hm
          cases hrm : rest.mapM stockPair with
          | error e => rw [hrm] at hm; simp [bind, Except.bind] at hm
          | ok ps =>
              rw [hrm] at hm
              simp only [bind, Except.bind, pure, Except.pure] at hm
              obtain rfl : p :: ps = pairs := by
                cases hm; rfl
              obtain ⟨hr, hlen⟩ := ih ps hrm
              refine ⟨?_, by simp [hlen]⟩
              rw [List.mapM_cons, stockRow_eq, hsp, hr]
              simp [bind, Except.bind, Except.map, pure, Except.pure]

/-- Reading the two cells back off the rows built from a list of pairs
recovers the pairs. -/
lemma pair_rows_extract (ps : List (Json × Json)) :
    List.map ((fun r => ((r[0]?).getD Json.null, (r[1]?).getD Json.null)) ∘
      fun p => [p.1, p.2]) ps = ps := by
  induction ps with
  | nil => simp
  | cons p ps ih => simp [ih, Function.comp]

/-- The stocks payload `{"Time Series (5min)": mapping}`. -/
def stocksPayload (entries : List (String × Json)) : Json :=
  .obj [("Time Series (5min)", .obj entries)]

/-- C4, counterexample: the empty mapping (for which the claim's
key-by-key description yields the empty series and a line chart) instead
produces an error triple — the comprehension yields no rows, the DataFrame
has no columns, and plotly rejects the absent `time` column. -/
theorem C4_counterexample :
    process_data
      { api := apiStocks, data := some (stocksPayload []),
        error := none, api_time := 6 } 2 =
    (none, some (pxMissingCol "x"), 2) := rfl

/-- C4, amended: for every stocks-tagged fetch result whose payload maps
"Time Series (5min)" to a non-empty mapping from which every entry yields
its (timestamp key, parsed "1. open" price) pair, `process_data` produces
the line chart titled "IBM Stock Price (5min intervals)" whose series is
those pairs in the mapping's own order (no sorting). -/
theorem C4_amended (a : Api) (entries : List (String × Json))
    (pairs : List (Json × Json)) (t d : ℚ)
    (hp : a.processor = "stocks") (hne : entries ≠ [])
    (hm : entries.mapM stockPair = Except.ok pairs) :
    process_data
      { api := a, data := some (stocksPayload entries),
        error := none, api_time := t } d =
    (some { series := pairs, kind := .line,
            title := "IBM Stock Price (5min intervals)" }, none, d) := by
  obtain ⟨hrow, hlen⟩ := stocks_mapM entries pairs hm
  have hpne : pairs ≠ [] := by
    intro h
    subst h
    exact hne (List.length_eq_zero.mp hlen.symm)
  obtain ⟨p, ps, rfl⟩ : ∃ p ps, pairs = p :: ps := by
    cases pairs with
    | nil => exact absurd rfl hpne
    | cons p ps => exact ⟨p, ps, rfl⟩
  have hb : processBody
      { api := a, data := some (stocksPayload entries),
        error := none, api_time := t } =
      Except.ok { series := p :: ps, kind := .line,
                  title := "IBM Stock Price (5min intervals)" } := by
    rw [processBody]
    rw [if_neg (by simp [hp]), if_neg (by simp [hp]), if_pos hp]
    simp only [stocksPayload, pyDictGet, List.lookup, beq_self_eq_true,
      Option.getD, pyItems, bind, Except.bind, hrow]
    simp [dataFrameFromRecords, pxChart, List.indexOf?, List.findIdx?_cons,
      pair_rows_extract, Function.comp]
  simp [process_data, truthy, hb]

/-- Parsing the scenario's opening price string gives `150.25 = 601/4`. -/
lemma parse_150_25 : pyParseFloat "150.25" = some (601 / 4) := by
  have h0 : pyParseFloat "150.25" =
      some ((1 : ℚ) * ((150 : ℚ) + (25 : ℚ) / (10 : ℚ) ^ (2 : Nat))) := rfl
  rw [h0]
  norm_num

/-- C4, witness: the spec's concrete stocks scenario payload yields the
series `[("2024-01-01 09:30:00", 150.25)]` as a line chart. -/
theorem C4_witness :
    process_data
      { api := apiStocks,
        data := some (stocksPayload
          [("2024-01-01 09:30:00", .obj [("1. open", .str "150.25")])]),
        error := none, api_time := 6 } 2 =
    (some { series := [(.str "2024-01-01 09:30:00", .num (601 / 4))],
            kind := .line, title := "IBM Stock Price (5min intervals)" },
     none, 2) :=
  C4_amended apiStocks
    [("2024-01-01 09:30:00", .obj [("1. open", .str "150.25")])]
    [(.str "2024-01-01 09:30:00", .num (601 / 4))] 6 2
    rfl (List.cons_ne_nil _ _)
    (by
      rw [List.mapM_cons, List.mapM_nil]
      rw [show stockPair ("2024-01-01 09:30:00",
            .obj [("1. open", .str "150.25")]) =
          Except.ok (Json.str "2024-01-01 09:30:00", Json.num (601 / 4)) by
        simp [stockPair, Json.subscript, List.lookup, pyFloat, parse_150_25,
          bind, Except.bind]]
      rfl)

/-- A slot update for a failed fetch, used against claim C5. -/
def failedSlotResult : TimedFetchResult :=
  { api := apiWeather, data := none, error := some "API down", api_time := 7 }

/-- C5, counterexample: a slot update whose fetch result carries an error
renders exactly one timing metric (the `continue` skips the
processing-time metric), not two. -/
theorem C5_counterexample :
    truthy failedSlotResult.error = true ∧
    metricsOf (render_slot failedSlotResult 1) = [("API Time", 7)] :=
  ⟨rfl, rfl⟩

/-- C5, amended: a slot update shows the fetch-time metric alone when the
fetch result carries a truthy error, and both timing metrics (fetch time
and the processing time returned by `process_data`) otherwise. -/
theorem C5_amended (r : TimedFetchResult) (d : ℚ) :
    (truthy r.error = true →
      metricsOf (render_slot r d) = [("API Time", r.api_time)]) ∧
    (truthy r.error = false →
      metricsOf (render_slot r d) =
        [("API Time (incl. latency)", r.api_time),
         ("Processing Time", (process_data r d).2.2)]) := by
  constructor
  · intro h
    simp [render_slot, h, metricsOf]
  · intro h
    cases hp : truthy (process_data r d).2.1 <;>
      simp [render_slot, h, hp, metricsOf]

/-- C5, witness: on a successful weather slot both metrics are shown, with
the fetch time `6` and the processing time `2`. -/
theorem C5_witness :
    metricsOf (render_slot
      { api := apiWeather,
        data := some (weatherPayload [.str "00:00"] [.num 10]),
        error := none, api_time := 6 } 2) =
    [("API Time (incl. latency)", 6), ("Processing Time", 2)] :=
  (C5_amended
    { api := apiWeather,
      data := some (weatherPayload [.str "00:00"] [.num 10]),
      error := none, api_time := 6 } 2).2 rfl

/-- C6: `fetch_with_latency` sets `api_time` to the whole invocation's
wall-clock time — the duration of the (possibly cache-served)
`fetch_api_data` call plus the duration of the unconditional
`time.sleep(api["latency"])` — so for every underlying result (fresh
success, cache hit or error), whenever the fetch duration is nonnegative
and the sleep lasts at least the requested latency, `api_time` is at least
the descriptor's simulated latency. -/
theorem C6_latency (inner : FetchResult) (fetchDur sleepDur : ℚ)
    (hf : 0 ≤ fetchDur) (hs : inner.api.latency ≤ sleepDur) :
    (fetch_with_latency inner fetchDur sleepDur).api_time =
      fetchDur + sleepDur ∧
    inner.api.latency ≤ (fetch_with_latency inner fetchDur sleepDur).api_time := by
  refine ⟨rfl, ?_⟩
  show inner.api.latency ≤ fetchDur + sleepDur
  linarith

/-- C6, witness: an error result for the weather descriptor (latency 5),
fetched in `1/2`s with a sleep of exactly `5`s, reports `api_time = 11/2 ≥ 5`. -/
theorem C6_witness :
    (fetch_with_latency
      (fetch_api_data apiWeather (.response 500 (.json .null))) (1/2) 5).api_time =
      1/2 + 5 ∧
    (fetch_api_data apiWeather
      (.response 500 (.json .null))).api.latency ≤
      (fetch_with_latency
        (fetch_api_data apiWeather (.response 500 (.json .null))) (1/2) 5).api_time :=
  C6_latency (fetch_api_data apiWeather (.response 500 (.json .null)))
    (1/2) 5 (by norm_num) (by norm_num [fetch_api_data, raiseForStatus, apiWeather])

/-- C7: starting from an empty cache, the first fetch of a descriptor
issues the network call; a second fetch of the same descriptor within the
60-second TTL is served from the cache — same result, unchanged cache, no
network call — while a second fetch after the TTL has elapsed issues a new
network call.  (Cache semantics modelled from the spec: `st.cache_data` is
library code.) -/
theorem C7_cache (api : Api) (t1 t2 : ℚ) (o1 o2 : HttpOutcome) :
    (cachedFetch [] api t1 o1).2.2 = true ∧
    (t1 ≤ t2 → t2 - t1 ≤ cacheTTL →
      cachedFetch (cachedFetch [] api t1 o1).2.1 api t2 o2 =
        ((cachedFetch [] api t1 o1).1, (cachedFetch [] api t1 o1).2.1, false)) ∧
    (cacheTTL < t2 - t1 →
      (cachedFetch (cachedFetch [] api t1 o1).2.1 api t2 o2).2.2 = true) := by
  refine ⟨rfl, ?_, ?_⟩
  · intro h1 h2
    simp [cachedFetch, cacheLookup, List.find?, h2]
  · intro h
    simp [cachedFetch, cacheLookup, List.find?, not_le.mpr h]

/-- C7, witness: with the weather descriptor fetched at time 0, a repeat
at time 30 is a cache hit (no network call, same stored result). -/
theorem C7_witness :
    cachedFetch (cachedFetch [] apiWeather 0 (.response 500 (.json .null))).2.1
      apiWeather 30 (.failure "net down") =
    ((cachedFetch [] apiWeather 0 (.response 500 (.json .null))).1,
     (cachedFetch [] apiWeather 0 (.response 500 (.json .null))).2.1, false) :=
  (C7_cache apiWeather 0 30 (.response 500 (.json .null)) (.failure "net down")).2.1
    (by norm_num) (by norm_num [cacheTTL])

/-- C8: the orchestration loop delivers exactly the (index, result) events
of the tasks, in the completion order produced by `as_completed`, and that
order is non-decreasing in completion time.  (`as_completed`'s
completion-order iteration is modelled from the spec: it is library code.) -/
theorem C8_completion_order (tasks : List FetchTask) :
    orchestrate tasks =
      (as_completed tasks).map (fun t => (t.index, t.result)) ∧
    List.Pairwise (fun a b => a.doneAt ≤ b.doneAt) (as_completed tasks) := by
  refine ⟨rfl, ?_⟩
  have htrans : ∀ a b c : FetchTask,
      decide (a.doneAt ≤ b.doneAt) = true →
      decide (b.doneAt ≤ c.doneAt) = true →
      decide (a.doneAt ≤ c.doneAt) = true := by
    intro a b c hab hbc
    exact decide_eq_true
      (le_trans (of_decide_eq_true hab) (of_decide_eq_true hbc))
  have htotal : ∀ a b : FetchTask,
      (decide (a.doneAt ≤ b.doneAt) || decide (b.doneAt ≤ a.doneAt)) = true := by
    intro a b
    rcases le_total a.doneAt b.doneAt with h | h <;> simp [h]
  have h := @List.sorted_mergeSort FetchTask
    (fun a b => decide (a.doneAt ≤ b.doneAt)) htrans htotal tasks
  exact h.imp (fun hab => of_decide_eq_true hab)

/-- A descriptor whose processor tag matches no branch of `process_data`. -/
def apiUnknown : Api :=
  { name := "Mystery Feed", url := "https://example.invalid/feed",
    params := [], processor := "sentiment", latency := 1 }

/-- C9: `process_data` is total and never propagates an exception: every
result is either a chart with no error or an error message with no chart;
in particular, with a non-truthy `error` field and a processor tag that is
none of weather/crypto/stocks, it returns the caught `NameError` triple. -/
theorem C9_total (r : TimedFetchResult) (d : ℚ) :
    ((∃ c t, process_data r d = (some c, none, t)) ∨
     (∃ m t, process_data r d = (none, some m, t))) ∧
    (truthy r.error = false → r.api.processor ≠ "weather" →
     r.api.processor ≠ "crypto" → r.api.processor ≠ "stocks" →
     process_data r d = (none, some nameFigMsg, d)) := by
  constructor
  · cases h : truthy r.error with
    | true =>
        cases he : r.error with
        | none => rw [he] at h; simp [truthy] at h
        | some m => exact Or.inr ⟨m, 0, by simp [process_data, truthy, he] at h ⊢; simp [h]⟩
    | false =>
        cases hb : processBody r with
        | ok c => exact Or.inl ⟨c, d, by simp [process_data, h, hb]⟩
        | error m => exact Or.inr ⟨m, d, by simp [process_data, h, hb]⟩
  · intro h h1 h2 h3
    simp [process_data, h, processBody, h1, h2, h3]

/-- C9, witness: an unknown processor tag yields the `NameError` error
triple at a concrete input. -/
theorem C9_witness :
    process_data
      { api := apiUnknown, data := some .null, error := none, api_time := 3 }
      1 = (none, some nameFigMsg, 1) :=
  (C9_total
    { api := apiUnknown, data := some .null, error := none, api_time := 3 }
    1).2 rfl (by decide) (by decide) (by decide)

/-- C10: a stocks payload without the "Time Series (5min)" key takes the
`.get(..., {})` default instead of raising — the resulting error is the
plotly missing-column message, not a key-access failure for that key —
while a weather payload missing "hourly" and a crypto payload missing
"prices" do surface as caught `KeyError`s. -/
theorem C10_stocks_get_default (a : Api) (fields : List (String × Json))
    (t d : ℚ) :
    (a.processor = "stocks" → fields.lookup "Time Series (5min)" = none →
      process_data
        { api := a, data := some (.obj fields), error := none, api_time := t }
        d = (none, some (pxMissingCol "x"), d) ∧
      pxMissingCol "x" ≠ keyErrorMsg "Time Series (5min)") ∧
    (a.processor = "weather" → fields.lookup "hourly" = none →
      process_data
        { api := a, data := some (.obj fields), error := none, api_time := t }
        d = (none, some (keyErrorMsg "hourly"), d)) ∧
    (a.processor = "crypto" → fields.lookup "prices" = none →
      process_data
        { api := a, data := some (.obj fields), error := none, api_time := t }
        d = (none, some (keyErrorMsg "prices"), d)) := by
  refine ⟨?_, ?_, ?_⟩
  · intro hp hl
    constructor
    · simp [process_data, truthy, processBody, hp, pyDictGet, hl, pyItems,
        bind, Except.bind, dataFrameFromRecords, pxChart, List.indexOf?,
        pure, Except.pure, List.mapM.loop]
    · decide
  · intro hp hl
    simp [process_data, truthy, processBody, hp, dataSubscript,
      Json.subscript, hl, bind, Except.bind]
  · intro hp hl
    simp [process_data, truthy, processBody, hp, dataSubscript,
      Json.subscript, hl, bind, Except.bind]

/-- C10, witness: concrete payloads missing the respective top-level keys -
the stocks branch yields the missing-column error, the weather branch the
`KeyError` on "hourly". -/
theorem C10_witness :
    (process_data
      { api := apiStocks, data := some (.obj [("other", .num 1)]),
        error := none, api_time := 6 } 2 =
      (none, some (pxMissingCol "x"), 2) ∧
     pxMissingCol "x" ≠ keyErrorMsg "Time Series (5min)") ∧
    process_data
      { api := apiWeather, data := some (.obj [("other", .num 1)]),
        error := none, api_time := 6 } 2 =
      (none, some (keyErrorMsg "hourly"), 2) :=
  ⟨(C10_stocks_get_default apiStocks [("other", .num 1)] 6 2).1 rfl rfl,
   (C10_stocks_get_default apiWeather [("other", .num 1)] 6 2).2.1 rfl rfl⟩

end Dashboard
